import Mathlib

/-!
# Payment collection server: shallow embedding

This file embeds the core state machine of the payment-collection server
(`src/server.ts`, with the client form handler in `src/unnamed/part_000`)
as pure Lean functions, and proves the claims of the specification about it.

Modelling conventions:
* the SQLite database becomes a `DB` structure: the `payments` table is a
  `List PaymentRecord` (insertion order = rowid order), the AUTOINCREMENT
  counter is `nextId`, and the single `settings` row (`payment_status`) is a
  `String` field, initialised to `"active"` by the schema;
* SQL `DATETIME` values become `Nat` seconds since the Unix epoch (UTC);
  `date("now")` and `toISOString().slice(0,10)` both work in UTC, so one
  clock value `now : Nat` drives both;
* JSON numbers (the `amount` field, a SQLite `REAL`) become `Rat`;
* each Express handler becomes a function from the database (plus the
  request body / route parameter) to the new database and a `Response`
  describing the JSON body / HTTP status it sends.
-/

/-- One row of the `payments` table. -/
structure PaymentRecord where
  id : Nat
  transaction_id : String
  name : String
  phone : String
  address : String
  amount : Rat
  status : String
  is_trashed : Bool
  created_at : Nat
  deriving DecidableEq, Repr

/-- The durable store: `payments` table, AUTOINCREMENT counter and the
`settings` row for key `payment_status` (schema default `"active"`). -/
structure DB where
  payments : List PaymentRecord
  nextId : Nat
  payment_status : String
  deriving DecidableEq, Repr

/-- The freshly initialised database: empty `payments` table,
`payment_status = "active"`. -/
def DB.init : DB := { payments := [], nextId := 1, payment_status := "active" }

/-- The JSON body `{name, phone, address, amount}` read by the payment
endpoints. -/
structure RequestBody where
  name : String
  phone : String
  address : String
  amount : Rat
  deriving DecidableEq, Repr

/-- The environment variables the server reads (each may be unset). -/
structure Env where
  adminUpiId : Option String
  adminName : Option String
  adminUsername : Option String
  adminPassword : Option String
  deriving DecidableEq, Repr

/-- A run with no environment variables set, so every default applies. -/
def Env.default : Env :=
  { adminUpiId := none, adminName := none, adminUsername := none, adminPassword := none }

/-- The JSON responses (with HTTP status) the handlers can send. -/
inductive Response where
  /-- 403 `{error: "Payments are currently paused by the administrator."}` -/
  | pausedError
  /-- 200 `{upiUrl}` from `initiate-manual-payment`. -/
  | upiUrl (url : String)
  /-- 200 `{status:"success", transactionId, payment}` from `submit-manual-payment`. -/
  | submitOk (transactionId : String) (payment : Option PaymentRecord)
  /-- 500 `{error: "Failed to save payment"}` (the catch-all of `submit-manual-payment`). -/
  | saveError
  /-- 200 `{success:true, token:"admin-session-token"}` from `admin/login`. -/
  | loginOk
  /-- 401 `{success:false, error:"Invalid credentials"}` from `admin/login`. -/
  | loginFail
  /-- 200 array of records from the listing endpoints. -/
  | records (l : List PaymentRecord)
  /-- 200 `{value}` from `payment-status`. -/
  | statusVal (v : String)
  /-- 400 `{error:"Invalid status"}` from `admin/update-status`. -/
  | invalidStatus
  /-- 200 `{success:true, status}` from `admin/update-status`. -/
  | okStatus (s : String)
  /-- 200 `{success:true}` from the trash/restore/delete endpoints. -/
  | ok
  deriving DecidableEq, Repr

/-- The `success` field of the JSON body, when the response has one. -/
def Response.successFlag : Response → Option Bool
  | Response.loginOk => some true
  | Response.loginFail => some false
  | Response.okStatus _ => some true
  | Response.ok => some true
  | _ => none

/-! ## String helpers (JavaScript built-ins used by the server) -/

/-- JavaScript `String.prototype.padStart(n, c)`: left-pad to length at
least `n` with the character `c`. A string already of length `≥ n` is
returned unchanged (so `padStart(4, zero)` of `"10000"` is `"10000"`). -/
def padStart (n : Nat) (c : Char) (s : String) : String :=
  if n ≤ s.length then s else String.mk (List.replicate (n - s.length) c) ++ s

/-- Upper-case hexadecimal digit for `n < 16`. -/
def hexDigit (n : Nat) : Char :=
  if n < 10 then Char.ofNat (48 + n) else Char.ofNat (55 + n)

/-- Characters `encodeURIComponent` leaves unescaped. -/
def isUnreservedURIChar (c : Char) : Bool :=
  c.isAlphanum || c = '-' || c = '_' || c = '.' || c = '!' ||
    c = '~' || c = '*' || c = Char.ofNat 39 || c = '(' || c = ')'

/-- Percent-encoding of one UTF-8 byte. -/
def encodeByte (b : UInt8) : List Char :=
  let n := b.toNat
  if n < 128 && isUnreservedURIChar (Char.ofNat n) then [Char.ofNat n]
  else ['%', hexDigit (n / 16), hexDigit (n % 16)]

/-- JavaScript `encodeURIComponent`, byte by byte over the UTF-8 encoding. -/
def encodeURIComponent (s : String) : String :=
  String.mk (s.toUTF8.toList.foldr (fun b acc => encodeByte b ++ acc) [])

/-- Decimal digits of the fractional part `r / den`, with fuel. -/
def fracDigits : Nat → Nat → Nat → List Char
  | 0, _, _ => []
  | _ + 1, 0, _ => []
  | fuel + 1, r, den =>
    let r10 := r * 10
    Char.ofNat (48 + r10 / den) :: fracDigits fuel (r10 % den) den

/-- Decimal rendering of a rational, standing in for JavaScript number
printing in template strings (amounts are modelled as rationals). -/
def decimalString (q : Rat) : String :=
  let sign := if q.num < 0 then "-" else ""
  let n := q.num.natAbs
  let intPart := toString (n / q.den)
  let r := n % q.den
  if r = 0 then sign ++ intPart
  else sign ++ intPart ++ "." ++ String.mk (fracDigits 20 r q.den)

/-! ## Calendar arithmetic

`new Date().toISOString().slice(0, 10)` formats the current UTC calendar
date; `date("now")` in SQLite is the same UTC date. Both are derived here
from `now / 86400`, the number of whole days since 1970-01-01, using the
standard days-to-civil-date conversion. -/

/-- Convert a day count since 1970-01-01 to `(year, month, day)` in the
proleptic Gregorian calendar. -/
def civilFromDays (z : Nat) : Nat × Nat × Nat :=
  let zShift := z + 719468
  let era := zShift / 146097
  let doe := zShift % 146097
  let yoe := (doe - doe / 1460 + doe / 36524 - doe / 146096) / 365
  let y := yoe + era * 400
  let doy := doe - (365 * yoe + yoe / 4 - yoe / 100)
  let mp := (5 * doy + 2) / 153
  let d := doy - (153 * mp + 2) / 5 + 1
  let m := if mp < 10 then mp + 3 else mp - 9
  (if m ≤ 2 then y + 1 else y, m, d)

/-- `toISOString().slice(0,10)` with the hyphens removed: the current UTC
date as `YYYYMMDD`. -/
def dateStr (now : Nat) : String :=
  let c := civilFromDays (now / 86400)
  padStart 4 '0' (toString c.1) ++ padStart 2 '0' (toString c.2.1) ++
    padStart 2 '0' (toString c.2.2)

/-- The timestamp of 00:00:00 UTC of the current day: what the SQL
comparison `created_at >= date("now")` cuts at. -/
def startOfDay (now : Nat) : Nat := (now / 86400) * 86400

/-! ## The handlers of `src/server.ts` -/

/-- The query `SELECT COUNT(*) as count FROM payments WHERE created_at >=
date("now")`: records created on or after the start of the current UTC
day, in any trashed state. -/
def todayCount (db : DB) (now : Nat) : Nat :=
  (db.payments.filter (fun p => decide (startOfDay now ≤ p.created_at))).length

/-- The inline transaction-ID computation of `submit-manual-payment`:
`REC-` + UTC date `YYYYMMDD` + `-` + `(count + 1).toString().padStart(4, 0)`. -/
def generateTransactionId (db : DB) (now : Nat) : String :=
  "REC-" ++ dateStr now ++ "-" ++ padStart 4 '0' (toString (todayCount db now + 1))

/-- Handler of `POST /api/initiate-manual-payment`: check the gate, then
build the UPI deep link. No write to the store happens on any path. -/
def initiateManualPayment (env : Env) (db : DB) (r : RequestBody) : DB × Response :=
  if db.payment_status = "paused" then (db, Response.pausedError)
  else
    let upiId := env.adminUpiId.getD "9511648488@ybl"
    let adminName := env.adminName.getD "Abhay Rathod"
    let url := "upi://pay?pa=" ++ upiId ++ "&pn=" ++ encodeURIComponent adminName ++
      "&am=" ++ decimalString r.amount ++ "&cu=INR&tn=" ++
      encodeURIComponent ("Payment from " ++ r.name)
    (db, Response.upiUrl url)

/-- Handler of `POST /api/submit-manual-payment`: check the gate, compute
the transaction ID from the count of records created today, insert the row (the `UNIQUE`
constraint on `transaction_id` makes the insert throw on a duplicate,
which the catch block turns into the 500 `saveError`), then re-select the
inserted row by transaction ID. No field of the body is validated. -/
def submitManualPayment (db : DB) (now : Nat) (r : RequestBody) : DB × Response :=
  if db.payment_status = "paused" then (db, Response.pausedError)
  else
    let transactionId := generateTransactionId db now
    if db.payments.any (fun p => decide (p.transaction_id = transactionId)) then
      (db, Response.saveError)
    else
      let newPayment : PaymentRecord :=
        { id := db.nextId, transaction_id := transactionId, name := r.name,
          phone := r.phone, address := r.address, amount := r.amount,
          status := "success", is_trashed := false, created_at := now }
      let db2 : DB := { db with payments := db.payments ++ [newPayment],
                                nextId := db.nextId + 1 }
      (db2, Response.submitOk transactionId
        (db2.payments.find? (fun p => decide (p.transaction_id = transactionId))))

/-- Handler of `POST /api/admin/login`: compare against the statically
configured credentials (environment variables with defaults). The token
returned on success is a constant string no other endpoint ever checks. -/
def adminLogin (env : Env) (username password : String) : Bool :=
  decide (username = env.adminUsername.getD "Abhay") &&
    decide (password = env.adminPassword.getD "Abhay123")

/-- Insertion step for `ORDER BY created_at DESC`. -/
def insertDesc (p : PaymentRecord) : List PaymentRecord → List PaymentRecord
  | [] => [p]
  | q :: qs => if p.created_at ≤ q.created_at then q :: insertDesc p qs else p :: q :: qs

/-- `ORDER BY created_at DESC`, as an insertion sort. -/
def sortByCreatedAtDesc : List PaymentRecord → List PaymentRecord
  | [] => []
  | p :: ps => insertDesc p (sortByCreatedAtDesc ps)

/-- Handler of `GET /api/admin/payments`: the active listing
(`WHERE is_trashed = 0 ORDER BY created_at DESC`). -/
def getAdminPayments (db : DB) : List PaymentRecord :=
  sortByCreatedAtDesc (db.payments.filter (fun p => !p.is_trashed))

/-- Handler of `GET /api/admin/trash`: the trashed listing
(`WHERE is_trashed = 1 ORDER BY created_at DESC`). -/
def getAdminTrash (db : DB) : List PaymentRecord :=
  sortByCreatedAtDesc (db.payments.filter (fun p => p.is_trashed))

/-- Handler of `GET /api/payment-status`. -/
def getPaymentStatus (db : DB) : Response := Response.statusVal db.payment_status

/-- Handler of `POST /api/admin/update-status`: reject values other than
`"active"`/`"paused"`, otherwise overwrite the settings row. -/
def updateStatus (db : DB) (s : String) : DB × Response :=
  if s ≠ "active" ∧ s ≠ "paused" then (db, Response.invalidStatus)
  else ({ db with payment_status := s }, Response.okStatus s)

/-- Handler of `POST /api/admin/delete-payment/:id`:
`UPDATE payments SET is_trashed = 1 WHERE id = ?`, then `{success:true}`
regardless of how many rows changed. -/
def deletePayment (db : DB) (id : Nat) : DB × Response :=
  let l := db.payments.map (fun p => if p.id = id then { p with is_trashed := true } else p)
  ({ db with payments := l }, Response.ok)

/-- Handler of `POST /api/admin/restore-payment/:id`:
`UPDATE payments SET is_trashed = 0 WHERE id = ?`, then `{success:true}`. -/
def restorePayment (db : DB) (id : Nat) : DB × Response :=
  let l := db.payments.map (fun p => if p.id = id then { p with is_trashed := false } else p)
  ({ db with payments := l }, Response.ok)

/-- Handler of `POST /api/admin/permanent-delete/:id`:
`DELETE FROM payments WHERE id = ? AND is_trashed = 1`, then `{success:true}`. -/
def permanentDelete (db : DB) (id : Nat) : DB × Response :=
  let l := db.payments.filter (fun p => !(decide (p.id = id) && p.is_trashed))
  ({ db with payments := l }, Response.ok)

/-- Handler of `POST /api/admin/clear-payments`:
`UPDATE payments SET is_trashed = 1 WHERE is_trashed = 0`. -/
def clearPayments (db : DB) : DB × Response :=
  let l := db.payments.map
    (fun p => if p.is_trashed = false then { p with is_trashed := true } else p)
  ({ db with payments := l }, Response.ok)

/-- Handler of `POST /api/admin/restore-payments`:
`UPDATE payments SET is_trashed = 0 WHERE is_trashed = 1`. -/
def restorePayments (db : DB) : DB × Response :=
  let l := db.payments.map
    (fun p => if p.is_trashed = true then { p with is_trashed := false } else p)
  ({ db with payments := l }, Response.ok)

/-- Handler of `POST /api/admin/empty-trash`:
`DELETE FROM payments WHERE is_trashed = 1`. -/
def emptyTrash (db : DB) : DB × Response :=
  let l := db.payments.filter (fun p => !p.is_trashed)
  ({ db with payments := l }, Response.ok)

/-! ## The request surface, for reachability claims -/

/-- One API request, carrying exactly the data the corresponding handler
reads from it. Only `login` carries credentials: no other route reads any
authentication information from the request. -/
inductive ApiRequest where
  | initiate (r : RequestBody)
  | submit (r : RequestBody)
  | login (username password : String)
  | getPayments
  | getTrash
  | getStatus
  | updateStatus (s : String)
  | deletePayment (id : Nat)
  | restorePayment (id : Nat)
  | permanentDelete (id : Nat)
  | clearPayments
  | restorePayments
  | emptyTrash
  deriving DecidableEq, Repr

/-- The privileged admin operations named by the spec: trash, restore,
purge, their batch forms, and the gate-status toggle. -/
def isPrivileged : ApiRequest → Bool
  | ApiRequest.updateStatus _ => true
  | ApiRequest.deletePayment _ => true
  | ApiRequest.restorePayment _ => true
  | ApiRequest.permanentDelete _ => true
  | ApiRequest.clearPayments => true
  | ApiRequest.restorePayments => true
  | ApiRequest.emptyTrash => true
  | _ => false

/-- The dispatch of the server: route each request to its handler. -/
def handle (env : Env) (db : DB) (now : Nat) : ApiRequest → DB × Response
  | ApiRequest.initiate r => initiateManualPayment env db r
  | ApiRequest.submit r => submitManualPayment db now r
  | ApiRequest.login u p =>
      (db, if adminLogin env u p then Response.loginOk else Response.loginFail)
  | ApiRequest.getPayments => (db, Response.records (getAdminPayments db))
  | ApiRequest.getTrash => (db, Response.records (getAdminTrash db))
  | ApiRequest.getStatus => (db, getPaymentStatus db)
  | ApiRequest.updateStatus s => updateStatus db s
  | ApiRequest.deletePayment id => deletePayment db id
  | ApiRequest.restorePayment id => restorePayment db id
  | ApiRequest.permanentDelete id => permanentDelete db id
  | ApiRequest.clearPayments => clearPayments db
  | ApiRequest.restorePayments => restorePayments db
  | ApiRequest.emptyTrash => emptyTrash db

/-! ## Client-side validation (`handlePayment` in `src/unnamed/part_000`) -/

/-- The regular expression test of the client form handler: the phone
field matches `^\d{10}$`. -/
def isTenDigitPhone (s : String) : Bool :=
  decide (s.length = 10) && s.all Char.isDigit

/-! ## Definitions written from the wording of the specification

These two definitions follow §4.2 of the specification word for word, to
be compared with the code-derived `todayCount` and `generateTransactionId`
in the refinement claim about transaction-ID format. -/

/-- Modelled from the spec: "count = number of payment records (any
trashed state) whose createdAt falls on or after the start of the current
day". -/
def spec_dailyCount (db : DB) (now : Nat) : Nat :=
  (db.payments.filter (fun p => decide (startOfDay now ≤ p.created_at))).length

/-- Modelled from the spec: "take the current calendar date, format as
YYYYMMDD; sequence = count + 1, zero-padded to 4 digits; concatenate as
REC-date-seq". -/
def spec_transactionId (db : DB) (now : Nat) : String :=
  "REC-" ++ dateStr now ++ "-" ++ padStart 4 '0' (toString (spec_dailyCount db now + 1))

/-! ## Concrete fixtures used by witnesses and counterexamples -/

/-- A well-formed request body. -/
def rEx : RequestBody :=
  { name := "Asha", phone := "9876543210", address := "Pune", amount := 150 }

/-- A request body that violates every client-side validation rule that
can fail for a non-empty form: a 5-digit phone and an amount below 100. -/
def rBad : RequestBody :=
  { name := "Mia", phone := "12345", address := "X", amount := 50 }

/-- A store whose gate is paused. -/
def dbPaused : DB := { payments := [], nextId := 1, payment_status := "paused" }

/-- An active (never trashed) record. -/
def pActive : PaymentRecord :=
  { id := 1, transaction_id := "REC-19700101-0001", name := "Asha",
    phone := "9876543210", address := "Pune", amount := 150,
    status := "success", is_trashed := false, created_at := 0 }

/-- A trashed record. -/
def pTrashed : PaymentRecord :=
  { id := 2, transaction_id := "REC-19700101-0002", name := "Ben",
    phone := "9876543211", address := "Delhi", amount := 200,
    status := "success", is_trashed := true, created_at := 50 }

/-- A store holding one active and one trashed record. -/
def dbMix : DB := { payments := [pActive, pTrashed], nextId := 3, payment_status := "active" }

/-- A store holding only the active record. -/
def dbOne : DB := { payments := [pActive], nextId := 2, payment_status := "active" }

/-- The duplicate-collision fixture: the single record of this store was
created today and already carries the transaction ID that the generator
will produce next (count = 1, so the candidate is `REC-19700101-0002`,
which is exactly the stored ID, as happens when the record that was first
in the count has since been purged). -/
def pDup : PaymentRecord :=
  { id := 2, transaction_id := "REC-19700101-0002", name := "Ben",
    phone := "9876543211", address := "Delhi", amount := 200,
    status := "success", is_trashed := false, created_at := 10 }

/-- The store exhibiting the duplicate-transaction-ID insert. -/
def dbDup : DB := { payments := [pDup], nextId := 3, payment_status := "active" }

/-- A record created at the very start of the current day. -/
def pToday : PaymentRecord :=
  { id := 1, transaction_id := "SEED", name := "N", phone := "9999999999",
    address := "A", amount := 150, status := "success", is_trashed := false,
    created_at := 0 }

/-- A store with 9999 records created today: the daily-capacity fixture. -/
def dbFull : DB :=
  { payments := List.replicate 9999 pToday, nextId := 10000, payment_status := "active" }

/-! ## Helper lemmas -/

/-- Setting `is_trashed` to the value it already has changes nothing. -/
theorem setTrashedFalse_eq_self {p : PaymentRecord} (h : p.is_trashed = false) :
    ({ p with is_trashed := false }) = p := by
  cases p
  simp only at h
  subst h
  rfl

/-- Setting `is_trashed` to the value it already has changes nothing. -/
theorem setTrashedTrue_eq_self {p : PaymentRecord} (h : p.is_trashed = true) :
    ({ p with is_trashed := true }) = p := by
  cases p
  simp only at h
  subst h
  rfl

/-- Membership is preserved by the insertion step of the sort. -/
theorem mem_insertDesc {a p : PaymentRecord} {l : List PaymentRecord} :
    a ∈ insertDesc p l ↔ a = p ∨ a ∈ l := by
  induction l with
  | nil => simp [insertDesc]
  | cons q qs ih =>
    unfold insertDesc
    by_cases h : p.created_at ≤ q.created_at
    · simp only [if_pos h, List.mem_cons, ih]
      tauto
    · simp only [if_neg h, List.mem_cons]

/-- The listing order `ORDER BY created_at DESC` does not change which
records appear. -/
theorem mem_sortByCreatedAtDesc {a : PaymentRecord} {l : List PaymentRecord} :
    a ∈ sortByCreatedAtDesc l ↔ a ∈ l := by
  induction l with
  | nil => simp [sortByCreatedAtDesc]
  | cons p ps ih =>
    simp only [sortByCreatedAtDesc, mem_insertDesc, ih, List.mem_cons]

/-- `find?` on a list extended on the right finds the new element when
nothing before it matches. -/
theorem find?_append_last {f : PaymentRecord → Bool} {l : List PaymentRecord}
    {a : PaymentRecord} (h : ∀ x ∈ l, f x = false) (ha : f a = true) :
    (l ++ [a]).find? f = some a := by
  induction l with
  | nil => simp [List.find?, ha]
  | cons x xs ih =>
    have hx := h x (by simp)
    simp only [List.cons_append, List.find?, hx]
    exact ih (fun y hy => h y (by simp [hy]))

/-! ## Claim C1 -/

/-- C1: for every submission while the gate setting is `paused`, both the
initiate handler and the confirm (submit) handler fail with the 403
paused error, and the store is returned unchanged: no payment record is
created and no transaction ID is consumed. -/
theorem c1_paused_blocks_both (env : Env) (db : DB) (now : Nat) (r : RequestBody)
    (h : db.payment_status = "paused") :
    initiateManualPayment env db r = (db, Response.pausedError) ∧
    submitManualPayment db now r = (db, Response.pausedError) := by
  constructor <;> simp [initiateManualPayment, submitManualPayment, h]

/-- Witness for C1 at a concrete paused store. -/
theorem c1_witness :
    dbPaused.payment_status = "paused" ∧
    initiateManualPayment Env.default dbPaused rEx = (dbPaused, Response.pausedError) ∧
    submitManualPayment dbPaused 0 rEx = (dbPaused, Response.pausedError) :=
  ⟨by decide, c1_paused_blocks_both Env.default dbPaused 0 rEx (by decide)⟩

/-! ## Claim C2 -/

/-- C2: every successful confirm stores and returns the transaction ID
demanded by the specification: `REC-` followed by the current calendar
date as `YYYYMMDD`, a dash, and the count of records created on or after
the start of the current day (any trashed state) plus one, zero-padded to
4 digits; with zero such records the sequence is `0001`, with one it is
`0002`. -/
theorem c2_transaction_id_format (db : DB) (now : Nat) (r : RequestBody)
    (hgate : db.payment_status ≠ "paused")
    (hfresh : db.payments.all
      (fun p => !(decide (p.transaction_id = spec_transactionId db now))) = true) :
    (submitManualPayment db now r).2 =
      Response.submitOk (spec_transactionId db now)
        (some { id := db.nextId, transaction_id := spec_transactionId db now,
                name := r.name, phone := r.phone, address := r.address,
                amount := r.amount, status := "success", is_trashed := false,
                created_at := now }) ∧
    (spec_dailyCount db now = 0 →
      spec_transactionId db now = "REC-" ++ dateStr now ++ "-" ++ "0001") ∧
    (spec_dailyCount db now = 1 →
      spec_transactionId db now = "REC-" ++ dateStr now ++ "-" ++ "0002") := by
  have hgen : generateTransactionId db now = spec_transactionId db now := rfl
  have hnone : ∀ x ∈ db.payments,
      (decide (x.transaction_id = generateTransactionId db now)) = false := by
    intro x hx
    have := List.all_eq_true.mp hfresh x hx
    rw [hgen]
    simpa using this
  have hany : db.payments.any
      (fun p => decide (p.transaction_id = generateTransactionId db now)) = false := by
    rw [List.any_eq_false]
    intro x hx
    simpa using hnone x hx
  refine ⟨?_, ?_, ?_⟩
  · unfold submitManualPayment
    rw [if_neg hgate]
    simp only [hany, Bool.false_eq_true, if_false]
    rw [find?_append_last hnone (by simp)]
    rw [hgen]
  · intro h
    unfold spec_transactionId
    rw [h]
    congr 1
  · intro h
    unfold spec_transactionId
    rw [h]
    congr 1

/-- Witness for C2: the first confirm on an empty store gets sequence
number 0001. -/
theorem c2_witness :
    DB.init.payment_status ≠ "paused" ∧
    spec_transactionId DB.init 0 = "REC-19700101-0001" ∧
    (submitManualPayment DB.init 0 rEx).2 =
      Response.submitOk (spec_transactionId DB.init 0)
        (some { id := DB.init.nextId, transaction_id := spec_transactionId DB.init 0,
                name := rEx.name, phone := rEx.phone, address := rEx.address,
                amount := rEx.amount, status := "success", is_trashed := false,
                created_at := 0 }) :=
  ⟨by decide, by decide,
    (c2_transaction_id_format DB.init 0 rEx (by decide) (by decide)).1⟩

/-! ## Claim C3 -/

/-- C3 counterexample: a confirm request whose phone fails the 10-digit
rule and whose amount is below the minimum of 100 is nevertheless
accepted by the confirm handler: a record is created from the invalid
fields and a success response is returned, not a validation error. -/
theorem c3_counterexample :
    isTenDigitPhone rBad.phone = false ∧ rBad.amount < 100 ∧
    (submitManualPayment DB.init 0 rBad).1.payments =
      [{ id := 1, transaction_id := "REC-19700101-0001", name := "Mia",
         phone := "12345", address := "X", amount := 50, status := "success",
         is_trashed := false, created_at := 0 }] ∧
    (submitManualPayment DB.init 0 rBad).2 =
      Response.submitOk "REC-19700101-0001"
        (some { id := 1, transaction_id := "REC-19700101-0001", name := "Mia",
                phone := "12345", address := "X", amount := 50,
                status := "success", is_trashed := false, created_at := 0 }) := by
  refine ⟨by decide, by decide, by decide, by decide⟩

/-- C3 amended: the confirm handler performs no field validation at all —
whatever the field values, while the gate is active and the generated
transaction ID is not already stored, it inserts a record carrying those
exact fields. (Field validation happens only in the client form handler
before initiate.) -/
theorem c3_amended_no_validation (db : DB) (now : Nat) (r : RequestBody)
    (hgate : db.payment_status ≠ "paused")
    (hfresh : db.payments.all
      (fun p => !(decide (p.transaction_id = generateTransactionId db now))) = true) :
    (submitManualPayment db now r).1.payments = db.payments ++
      [{ id := db.nextId, transaction_id := generateTransactionId db now,
         name := r.name, phone := r.phone, address := r.address,
         amount := r.amount, status := "success", is_trashed := false,
         created_at := now }] := by
  have hany : db.payments.any
      (fun p => decide (p.transaction_id = generateTransactionId db now)) = false := by
    rw [List.any_eq_false]
    intro x hx
    have := List.all_eq_true.mp hfresh x hx
    simpa using this
  unfold submitManualPayment
  rw [if_neg hgate]
  simp only [hany, Bool.false_eq_true, if_false]

/-- Witness for the amended C3, at the invalid request body. -/
theorem c3_witness :
    DB.init.payment_status ≠ "paused" ∧
    (submitManualPayment DB.init 0 rBad).1.payments = DB.init.payments ++
      [{ id := DB.init.nextId, transaction_id := generateTransactionId DB.init 0,
         name := rBad.name, phone := rBad.phone, address := rBad.address,
         amount := rBad.amount, status := "success", is_trashed := false,
         created_at := 0 }] :=
  ⟨by decide, c3_amended_no_validation DB.init 0 rBad (by decide) (by decide)⟩

/-! ## Claim C4 -/

/-- C4 (code bug): when 9999 payments were already created today, the
next transaction ID is generated without any capacity check: the
generator yields the five-digit sequence `10000` (a malformed,
non-4-digit field) instead of failing with a CapacityExceeded error. -/
theorem c4_overflow_silently_malformed (db : DB) (now : Nat)
    (h : todayCount db now = 9999) :
    generateTransactionId db now = "REC-" ++ dateStr now ++ "-" ++ "10000" ∧
    (padStart 4 '0' (toString (todayCount db now + 1))).length = 5 := by
  unfold generateTransactionId
  rw [h]
  exact ⟨by congr 1, by decide⟩

/-- Witness for C4: a store with 9999 records created today. -/
theorem c4_witness :
    todayCount dbFull 0 = 9999 ∧
    generateTransactionId dbFull 0 = "REC-" ++ dateStr 0 ++ "-" ++ "10000" := by
  have hc : todayCount dbFull 0 = 9999 := by
    show ((List.replicate 9999 pToday).filter
      (fun p => decide (startOfDay 0 ≤ p.created_at))).length = 9999
    rw [List.filter_eq_self.mpr, List.length_replicate]
    intro a ha
    rw [List.eq_of_mem_replicate ha]
    decide
  exact ⟨hc, (c4_overflow_silently_malformed dbFull 0 hc).1⟩

/-! ## Claim C5 -/

/-- C5 counterexample: a confirm whose freshly generated transaction ID
already exists in the store (here because the record that was first in
the daily count was purged, so the counter re-produces the ID of the
surviving record) is answered with the generic 500 save error and no
retry and no Conflict error: the single insert attempt is fatal for the
request. -/
theorem c5_counterexample :
    generateTransactionId dbDup 20 = "REC-19700101-0002" ∧
    pDup.transaction_id = "REC-19700101-0002" ∧
    submitManualPayment dbDup 20 rEx = (dbDup, Response.saveError) := by
  refine ⟨by decide, by decide, by decide⟩

/-- C5 amended: when insertion would hit the uniqueness constraint on the
transaction ID, the confirm handler does not retry generation: it returns
the generic 500 "Failed to save payment" error, leaving the store
unchanged. -/
theorem c5_amended_no_retry (db : DB) (now : Nat) (r : RequestBody)
    (hgate : db.payment_status ≠ "paused")
    (hdup : db.payments.any
      (fun p => decide (p.transaction_id = generateTransactionId db now)) = true) :
    submitManualPayment db now r = (db, Response.saveError) := by
  unfold submitManualPayment
  rw [if_neg hgate]
  simp only [hdup, if_true]

/-- Witness for the amended C5 at the collision fixture. -/
theorem c5_witness :
    dbDup.payment_status ≠ "paused" ∧
    submitManualPayment dbDup 20 rEx = (dbDup, Response.saveError) :=
  ⟨by decide, c5_amended_no_retry dbDup 20 rEx (by decide) (by decide)⟩

/-! ## Claim C6 -/

/-- C6: the purge handler deletes a record only when its trashed flag is
set: on a store where no record with the given id is trashed it is a
perfect no-op (the store is unchanged), and a trashed record with the
given id is removed and appears in neither the active listing nor the
trashed listing, while every record not matching id-and-trashed is
kept. -/
theorem c6_purge_only_trashed (db : DB) (id : Nat) :
    ((db.payments.all (fun p => !(decide (p.id = id) && p.is_trashed)) = true →
      permanentDelete db id = (db, Response.ok)) ∧
    (∀ p, p ∈ db.payments → p.id = id → p.is_trashed = true →
      p ∉ (permanentDelete db id).1.payments ∧
      p ∉ getAdminPayments (permanentDelete db id).1 ∧
      p ∉ getAdminTrash (permanentDelete db id).1) ∧
    (∀ q, q ∈ db.payments → ¬(q.id = id ∧ q.is_trashed = true) →
      q ∈ (permanentDelete db id).1.payments)) := by
  refine ⟨?_, ?_, ?_⟩
  · intro hall
    unfold permanentDelete
    rw [List.filter_eq_self.mpr]
    intro a ha
    exact List.all_eq_true.mp hall a ha
  · intro p hp hid htr
    have hpred : (!(decide (p.id = id) && p.is_trashed)) = false := by
      simp [hid, htr]
    have hnot : p ∉ (permanentDelete db id).1.payments := by
      intro hmem
      have := (List.mem_filter.mp hmem).2
      rw [hpred] at this
      exact Bool.false_ne_true this
    refine ⟨hnot, ?_, ?_⟩
    · intro hmem
      exact hnot (List.mem_filter.mp (mem_sortByCreatedAtDesc.mp hmem)).1
    · intro hmem
      exact hnot (List.mem_filter.mp (mem_sortByCreatedAtDesc.mp hmem)).1
  · intro q hq hnot
    refine List.mem_filter.mpr ⟨hq, ?_⟩
    by_cases h1 : q.id = id
    · have h2 : q.is_trashed = false := by
        cases h3 : q.is_trashed
        · rfl
        · exact absurd ⟨h1, h3⟩ hnot
      simp [h2]
    · simp [h1]

/-- Witness for C6: purging the active record of the mixed store changes
nothing; purging its trashed record removes it from the store and from
both listings. -/
theorem c6_witness :
    permanentDelete dbMix 1 = (dbMix, Response.ok) ∧
    (pTrashed ∉ (permanentDelete dbMix 2).1.payments ∧
      pTrashed ∉ getAdminPayments (permanentDelete dbMix 2).1 ∧
      pTrashed ∉ getAdminTrash (permanentDelete dbMix 2).1) ∧
    pActive ∈ (permanentDelete dbMix 2).1.payments :=
  ⟨(c6_purge_only_trashed dbMix 1).1 (by decide),
   (c6_purge_only_trashed dbMix 2).2.1 pTrashed (by decide) (by decide) (by decide),
   (c6_purge_only_trashed dbMix 2).2.2 pActive (by decide) (by decide)⟩

/-! ## Claim C7 -/

/-- C7 counterexample: on a store that already holds a trashed record,
trash-all followed by restore-all does not return the active set to its
pre-trash contents: the previously trashed record resurfaces in the
active listing, which grows from one record to two. -/
theorem c7_counterexample :
    getAdminPayments dbMix = [pActive] ∧
    getAdminPayments ((restorePayments (clearPayments dbMix).1).1) =
      [{ pTrashed with is_trashed := false }, pActive] := by
  refine ⟨by decide, by decide⟩

/-- C7 amended: trash-all followed by restore-all makes every record of
the store active — the resulting records are the original ones with the
trashed flag cleared, so the active set becomes the union of the
pre-trash active and trashed sets; it equals the pre-trash active set
exactly when the trash was empty, in which case the whole store returns
to its previous state. -/
theorem c7_amended_roundtrip (db : DB) :
    ((restorePayments (clearPayments db).1).1).payments =
      db.payments.map (fun p => { p with is_trashed := false }) ∧
    ((∀ p ∈ db.payments, p.is_trashed = false) →
      (restorePayments (clearPayments db).1).1 = db) := by
  have h1 : ((restorePayments (clearPayments db).1).1).payments =
      db.payments.map (fun p => { p with is_trashed := false }) := by
    show (db.payments.map
        (fun p => if p.is_trashed = false then { p with is_trashed := true } else p)).map
        (fun p => if p.is_trashed = true then { p with is_trashed := false } else p) =
      db.payments.map (fun p => { p with is_trashed := false })
    rw [List.map_map]
    refine List.map_congr_left ?_
    intro a _
    obtain ⟨i, tx, nm, ph, ad, am, st, tr, ca⟩ := a
    cases tr
    · rfl
    · rfl
  refine ⟨h1, ?_⟩
  intro hall
  have h2 : db.payments.map (fun p => { p with is_trashed := false }) = db.payments := by
    conv_rhs => rw [← List.map_id db.payments]
    refine List.map_congr_left ?_
    intro a ha
    exact setTrashedFalse_eq_self (hall a ha)
  show ({ (clearPayments db).1 with payments :=
      ((restorePayments (clearPayments db).1).1).payments } : DB) = db
  rw [h1, h2]
  rfl

/-- Witness for the amended C7 at an all-active store. -/
theorem c7_witness :
    (∀ p ∈ dbOne.payments, p.is_trashed = false) ∧
    (restorePayments (clearPayments dbOne).1).1 = dbOne :=
  ⟨by decide, (c7_amended_roundtrip dbOne).2 (by decide)⟩

/-! ## Claim C8 -/

/-- C8: for every existing record id, trashing then restoring that id
leaves the store as if only the trashed flag of the matching records had
been cleared; in particular the record with that id ends with the trashed
flag false and every other field (transaction id, name, phone, address,
amount, status, creation time, id) exactly as before the trash. -/
theorem c8_trash_restore_roundtrip (db : DB) (id : Nat) :
    ((restorePayment (deletePayment db id).1 id).1).payments =
      db.payments.map (fun q => if q.id = id then { q with is_trashed := false } else q) ∧
    (∀ p, p ∈ db.payments → p.id = id →
      ∃ q, q ∈ ((restorePayment (deletePayment db id).1 id).1).payments ∧
        q.is_trashed = false ∧ q.id = p.id ∧ q.transaction_id = p.transaction_id ∧
        q.name = p.name ∧ q.phone = p.phone ∧ q.address = p.address ∧
        q.amount = p.amount ∧ q.status = p.status ∧ q.created_at = p.created_at) := by
  have h1 : ((restorePayment (deletePayment db id).1 id).1).payments =
      db.payments.map (fun q => if q.id = id then { q with is_trashed := false } else q) := by
    show (db.payments.map
        (fun p => if p.id = id then { p with is_trashed := true } else p)).map
        (fun p => if p.id = id then { p with is_trashed := false } else p) =
      db.payments.map (fun q => if q.id = id then { q with is_trashed := false } else q)
    rw [List.map_map]
    refine List.map_congr_left ?_
    intro a _
    by_cases h : a.id = id
    · simp only [Function.comp_apply, if_pos h]
    · simp only [Function.comp_apply, if_neg h, if_neg h]
  refine ⟨h1, ?_⟩
  intro p hp hid
  refine ⟨{ p with is_trashed := false }, ?_, rfl, rfl, rfl, rfl, rfl, rfl, rfl, rfl, rfl⟩
  rw [h1]
  have : ({ p with is_trashed := false } : PaymentRecord) =
      (fun q => if q.id = id then { q with is_trashed := false } else q) p := by
    simp [hid]
  rw [this]
  exact List.mem_map_of_mem _ hp

/-- Witness for C8: trash then restore of the trashed-record id in the
mixed store yields that record with the flag cleared and all other fields
intact. -/
theorem c8_witness :
    pTrashed ∈ dbMix.payments ∧ pTrashed.id = 2 ∧
    (∃ q, q ∈ ((restorePayment (deletePayment dbMix 2).1 2).1).payments ∧
      q.is_trashed = false ∧ q.id = pTrashed.id ∧
      q.transaction_id = pTrashed.transaction_id ∧ q.name = pTrashed.name ∧
      q.phone = pTrashed.phone ∧ q.address = pTrashed.address ∧
      q.amount = pTrashed.amount ∧ q.status = pTrashed.status ∧
      q.created_at = pTrashed.created_at) :=
  ⟨by decide, by decide,
   (c8_trash_restore_roundtrip dbMix 2).2 pTrashed (by decide) (by decide)⟩

/-! ## Claim C9 -/

/-- C9 counterexample: trash, restore and purge on an id that is absent
from the store leave the store unchanged and never throw, but each
reports success=true to the caller, not success=false as claimed. -/
theorem c9_counterexample :
    (deletePayment DB.init 7).1 = DB.init ∧
    ((deletePayment DB.init 7).2).successFlag = some true ∧
    (restorePayment DB.init 7).1 = DB.init ∧
    ((restorePayment DB.init 7).2).successFlag = some true ∧
    (permanentDelete DB.init 7).1 = DB.init ∧
    ((permanentDelete DB.init 7).2).successFlag = some true := by
  refine ⟨by decide, by decide, by decide, by decide, by decide, by decide⟩

/-- C9 amended: for every id that is absent or in the wrong state, trash,
restore and purge are idempotent soft no-ops: the store is returned
unchanged and the response is the plain success=true acknowledgment (the
handlers never inspect how many rows were affected, so they cannot report
success=false). -/
theorem c9_amended_noop_success_true (db : DB) (id : Nat) :
    ((db.payments.all (fun p => !(decide (p.id = id)) || p.is_trashed) = true →
      deletePayment db id = (db, Response.ok)) ∧
    (db.payments.all (fun p => !(decide (p.id = id)) || !p.is_trashed) = true →
      restorePayment db id = (db, Response.ok)) ∧
    (db.payments.all (fun p => !(decide (p.id = id)) || !p.is_trashed) = true →
      permanentDelete db id = (db, Response.ok))) := by
  refine ⟨?_, ?_, ?_⟩
  · intro hall
    unfold deletePayment
    have hmap : db.payments.map
        (fun p => if p.id = id then { p with is_trashed := true } else p) = db.payments := by
      conv_rhs => rw [← List.map_id db.payments]
      refine List.map_congr_left ?_
      intro a ha
      have := List.all_eq_true.mp hall a ha
      by_cases h : a.id = id
      · have htr : a.is_trashed = true := by
          simpa [h] using this
        rw [if_pos h]
        exact setTrashedTrue_eq_self htr
      · rw [if_neg h]
        rfl
    rw [hmap]
  · intro hall
    unfold restorePayment
    have hmap : db.payments.map
        (fun p => if p.id = id then { p with is_trashed := false } else p) = db.payments := by
      conv_rhs => rw [← List.map_id db.payments]
      refine List.map_congr_left ?_
      intro a ha
      have := List.all_eq_true.mp hall a ha
      by_cases h : a.id = id
      · have htr : a.is_trashed = false := by
          simpa [h] using this
        rw [if_pos h]
        exact setTrashedFalse_eq_self htr
      · rw [if_neg h]
        rfl
    rw [hmap]
  · intro hall
    unfold permanentDelete
    have hfil : db.payments.filter
        (fun p => !(decide (p.id = id) && p.is_trashed)) = db.payments := by
      refine List.filter_eq_self.mpr ?_
      intro a ha
      have := List.all_eq_true.mp hall a ha
      by_cases h : a.id = id
      · have htr : a.is_trashed = false := by
          simpa [h] using this
        simp [htr]
      · simp [h]
    rw [hfil]

/-- Witness for the amended C9: trash of an already-trashed id, restore
of an absent id, and purge of a non-trashed id, all at concrete stores. -/
theorem c9_witness :
    deletePayment dbMix 2 = (dbMix, Response.ok) ∧
    restorePayment dbMix 99 = (dbMix, Response.ok) ∧
    permanentDelete dbMix 1 = (dbMix, Response.ok) :=
  ⟨(c9_amended_noop_success_true dbMix 2).1 (by decide),
   (c9_amended_noop_success_true dbMix 99).2.1 (by decide),
   (c9_amended_noop_success_true dbMix 1).2.2 (by decide)⟩

/-! ## Claim C10 -/

/-- C10 counterexample: privileged operations are reachable without any
validated credentials. The gate-toggle and single-trash requests carry no
credential fields at all (only the login request does), yet handling them
modifies the store: the gate flips to paused, and the active record of
the mixed store gets trashed. -/
theorem c10_counterexample :
    isPrivileged (ApiRequest.updateStatus "paused") = true ∧
    (handle Env.default DB.init 0 (ApiRequest.updateStatus "paused")).1 ≠ DB.init ∧
    (handle Env.default DB.init 0 (ApiRequest.updateStatus "paused")).1.payment_status
      = "paused" ∧
    isPrivileged (ApiRequest.deletePayment 1) = true ∧
    (handle Env.default dbMix 0 (ApiRequest.deletePayment 1)).1 ≠ dbMix ∧
    ({ pActive with is_trashed := true })
      ∈ (handle Env.default dbMix 0 (ApiRequest.deletePayment 1)).1.payments := by
  refine ⟨by decide, by decide, by decide, by decide, by decide, by decide⟩

/-- C10 amended: the login endpoint validates the static credentials but
records nothing on the server, and no privileged endpoint checks any
credential: a login (failed or successful) changes no behavior of any
subsequent request, and an unauthenticated gate-toggle request sets the
gate while leaving the records untouched. -/
theorem c10_amended_no_server_auth (env : Env) (db : DB) (now : Nat)
    (u pw s : String) :
    (handle env db now (ApiRequest.login u pw)).1 = db ∧
    (adminLogin env u pw = true ↔
      (u = env.adminUsername.getD "Abhay" ∧ pw = env.adminPassword.getD "Abhay123")) ∧
    (∀ req, handle env ((handle env db now (ApiRequest.login u pw)).1) now req =
      handle env db now req) ∧
    ((s = "active" ∨ s = "paused") →
      ((handle env db now (ApiRequest.updateStatus s)).1.payment_status = s ∧
       (handle env db now (ApiRequest.updateStatus s)).1.payments = db.payments)) := by
  refine ⟨rfl, ?_, fun req => rfl, ?_⟩
  · simp [adminLogin]
  · intro hs
    have hcond : ¬(s ≠ "active" ∧ s ≠ "paused") := by
      rcases hs with h | h
      · intro hc
        exact hc.1 h
      · intro hc
        exact hc.2 h
    show ((updateStatus db s).1.payment_status = s ∧ (updateStatus db s).1.payments = db.payments)
    unfold updateStatus
    rw [if_neg hcond]
    exact ⟨rfl, rfl⟩

/-- Witness for the amended C10 at concrete store, credentials and
status value. -/
theorem c10_witness :
    (handle Env.default DB.init 0 (ApiRequest.login "eve" "guess")).1 = DB.init ∧
    (handle Env.default DB.init 0 (ApiRequest.updateStatus "paused")).1.payment_status
      = "paused" ∧
    (handle Env.default DB.init 0 (ApiRequest.updateStatus "paused")).1.payments
      = DB.init.payments :=
  ⟨(c10_amended_no_server_auth Env.default DB.init 0 "eve" "guess" "paused").1,
   (c10_amended_no_server_auth Env.default DB.init 0 "eve" "guess" "paused").2.2.2
     (Or.inr rfl)⟩
